import Mathlib

/-!
Shallow embedding of `src/main.py` (a FastAPI "Library API" demo).

The parts embedded here are the ones the claims are about:
  * the user directory `users_db` and `authenticate_user`;
  * JWT issuance `create_access_token` and verification `get_current_user`
    (which calls python-jose `jwt.decode`);
  * the `login` endpoint (`POST /token`);
  * the book catalog `books_db` and the `get_book` endpoint.

Modelling conventions:
  * Time is an `Int` counting seconds since the epoch; `datetime.utcnow()`
    becomes an explicit `now : Int` parameter, and `timedelta` values become
    second counts (15 minutes = 900 seconds).
  * The HMAC-SHA256 signature of python-jose is modelled symbolically as the
    pair `(key, payload)` (a perfect MAC: a signature verifies exactly when it
    was produced with the same key over the same payload).  A structurally
    malformed token string is the `Token.malformed` constructor.
  * python-jose `jwt.decode` raises `ExpiredSignatureError` (a subclass of
    `JWTError`) when the `exp` claim is strictly less than the current time,
    after the signature check; `JoseError` keeps the two kinds distinct.
  * Python `False` returned by `authenticate_user` becomes `none`; raising
    `HTTPException` becomes returning `Except.error` carrying the status code
    and optional detail.
  * The module-level globals `users_db` / `books_db` are passed as explicit
    parameters (the source only ever reads them in the embedded functions);
    the concrete initial values are `users_db` and `books_db` below.
  * `get_book` returns `Option (...)`, where `none` models a Python
    `IndexError` escaping the handler; `pyIndex` is Python list indexing
    including its negative-index convention.
-/

namespace LibraryApi

/-- A row of `users_db`: `{"username": ..., "password": ..., "disabled": ...}`. -/
structure Entry where
  username : String
  password : String
  disabled : Bool
deriving Repr, DecidableEq

/-- The pydantic `User` model: `username: str`, `disabled: bool | None = False`. -/
structure User where
  username : String
  disabled : Bool
deriving Repr, DecidableEq

/-- The user directory: an association from username keys to entries. -/
abbrev Directory := List (String × Entry)

/-- The `users_db` global from `src/main.py` lines 49-52. -/
def users_db : Directory :=
  [ ("alice", { username := "alice", password := "wonderland", disabled := false }),
    ("bujjy23", { username := "bujjy23", password := "bujjy2003", disabled := false }) ]

/-- Python `dict.get` on the directory. -/
def dbGet (db : Directory) (u : String) : Option Entry :=
  (db.find? (fun e => e.1 == u)).map (fun e => e.2)

/-- `SECRET_KEY = "supersecretkey"` (line 57). -/
def SECRET_KEY : String := "supersecretkey"

/-- `ACCESS_TOKEN_EXPIRE_MINUTES = 30` (line 59); never read by the code below. -/
def ACCESS_TOKEN_EXPIRE_MINUTES : Int := 30

/-- The decoded JWT claim set used by this program: an optional `sub` claim and
the `exp` timestamp that `create_access_token` always adds. -/
structure Payload where
  sub : Option String
  exp : Int
deriving Repr, DecidableEq

/-- Symbolic HMAC: signing a payload with a key is modelled as the pair
`(key, payload)`, so a signature matches exactly when it was computed with the
same key over the same payload (an idealized unforgeable MAC). -/
def mac (key : String) (p : Payload) : String × Payload := (key, p)

/-- An encoded token string: either structurally malformed, or a payload
together with the signature the encoder attached to it. -/
inductive Token where
  | malformed
  | signed (payload : Payload) (sig : String × Payload)
deriving Repr, DecidableEq

/-- python-jose `jwt.encode`: serialize the claims and sign them with `key`. -/
def jwtEncode (key : String) (p : Payload) : Token :=
  .signed p (mac key p)

/-- The two failure kinds of python-jose `jwt.decode` reachable here:
`invalid` is a generic `JWTError` (malformed encoding or signature mismatch);
`expired` is `ExpiredSignatureError`, a subclass of `JWTError`. -/
inductive JoseError where
  | invalid
  | expired
deriving Repr, DecidableEq

/-- python-jose `jwt.decode(token, key, algorithms=[ALGORITHM])`: verify the
signature first (`JWTError` on malformed input or mismatch), then validate the
`exp` claim, raising `ExpiredSignatureError` exactly when `exp < now`
(jose compares `exp < now - leeway` with the default `leeway = 0`). -/
def jwtDecode (key : String) (t : Token) (now : Int) : Except JoseError Payload :=
  match t with
  | .malformed => .error .invalid
  | .signed p sig =>
      if sig ≠ mac key p then .error .invalid
      else if p.exp < now then .error .expired
      else .ok p

/-- `HTTPException(status_code, detail)` as raised by the handlers. -/
structure HTTPException where
  status_code : Nat
  detail : Option String
deriving Repr, DecidableEq

/-- The `data` dict passed to `create_access_token`; in this program it only
ever carries a `sub` claim. -/
structure TokenData where
  sub : Option String
deriving Repr, DecidableEq

/-- `create_access_token` (lines 63-67).  `expire = datetime.utcnow() +
(expires_delta or timedelta(minutes=15))`: note that `expires_delta or ...`
takes the 15-minute default both when `expires_delta` is `None` and when it is
`timedelta(0)`, because a zero `timedelta` is falsy in Python. -/
def create_access_token (data : TokenData) (expires_delta : Option Int) (now : Int) : Token :=
  let expire : Int := now +
    (match expires_delta with
     | some d => if d = 0 then 900 else d
     | none => 900)
  jwtEncode SECRET_KEY { sub := data.sub, exp := expire }

/-- `authenticate_user` (lines 69-73): look the username up with
`users_db.get`, return `False` (here `none`) if absent or if the stored
password differs, else a `User` with the entry's disabled flag. -/
def authenticate_user (db : Directory) (username password : String) : Option User :=
  match dbGet db username with
  | none => none
  | some user =>
      if user.password ≠ password then none
      else some { username := username, disabled := user.disabled }

/-- `get_current_user` (lines 75-83): decode the token (any `JWTError` is
caught and turned into `HTTPException(401)`); then if `payload.get("sub")` is
not a key of `users_db` (including the case where `sub` is absent, since
`None not in users_db`), raise `HTTPException(401)` — this raise is not a
`JWTError`, so it propagates out of the `try`; otherwise return
`User(username=username)`, whose `disabled` field defaults to `False`. -/
def get_current_user (db : Directory) (token : Token) (now : Int) : Except HTTPException User :=
  match jwtDecode SECRET_KEY token now with
  | .error _ => .error { status_code := 401, detail := none }
  | .ok payload =>
      match payload.sub with
      | none => .error { status_code := 401, detail := none }
      | some username =>
          if (dbGet db username).isNone then
            .error { status_code := 401, detail := none }
          else
            .ok { username := username, disabled := false }

/-- The `Token` response model of the `/token` endpoint (lines 37-39). -/
structure TokenResponse where
  access_token : Token
  token_type : String
deriving Repr, DecidableEq

/-- The `login` handler for `POST /token` (lines 85-91): authenticate, raise
`HTTPException(401)` on failure, else issue a token for
`{"sub": user.username}` with the default expiry. -/
def login (db : Directory) (username password : String) (now : Int) :
    Except HTTPException TokenResponse :=
  match authenticate_user db username password with
  | none => .error { status_code := 401, detail := none }
  | some user =>
      .ok { access_token := create_access_token { sub := some user.username } none now,
            token_type := "bearer" }

/-- The `sub` claim of a token, when it has one. -/
def Token.subject : Token → Option String
  | .malformed => none
  | .signed p _ => p.sub

/-- The `exp` claim of a token, when it has one. -/
def Token.expiry : Token → Option Int
  | .malformed => none
  | .signed p _ => some p.exp

/-- A row of `books_db` (lines 44-47). -/
structure BookRec where
  title : String
  author : String
  year : Int
deriving Repr, DecidableEq

/-- The `books_db` global (lines 44-47). -/
def books_db : List BookRec :=
  [ { title := "The Hobbit", author := "Tolkien", year := 1937 },
    { title := "1984", author := "Orwell", year := 1949 } ]

/-- Python list indexing `xs[i]` for `i : Int`: nonnegative indices count from
the front, negative indices count from the back, and `none` models the
`IndexError` raised when the index is out of range either way. -/
def pyIndex (xs : List BookRec) (i : Int) : Option BookRec :=
  if 0 ≤ i then xs[i.toNat]?
  else if 0 ≤ i + (xs.length : Int) then xs[(i + (xs.length : Int)).toNat]?
  else none

/-- The `get_book` handler for `GET /books/{book_id}` (lines 111-115).  The
route declares `Path(gt=0)`, so the framework only calls the handler with
`book_id > 0`; that validation is the precondition of the theorems below.
`none` models a Python `IndexError` escaping `books_db[book_id - 1]`. -/
def get_book (books : List BookRec) (book_id : Int) : Option (Except HTTPException BookRec) :=
  if book_id > (books.length : Int) then
    some (.error { status_code := 404, detail := some "Book not found" })
  else
    (pyIndex books (book_id - 1)).map .ok

/-- The module-level mutable state of `src/main.py`: the two globals the
handlers can see.  Only `create_book` ever writes to it. -/
structure AppState where
  users : Directory
  books : List BookRec
deriving Repr, DecidableEq

/-- `authenticate_user` in state-passing form: its body only reads
`users_db` (via `dict.get`) and contains no assignment, so the state passes
through unchanged. -/
def authenticate_user_st (s : AppState) (username password : String) :
    Option User × AppState :=
  (authenticate_user s.users username password, s)

/-- `create_access_token` in state-passing form: its body reads no global at
all beyond the constants `SECRET_KEY` and `ALGORITHM`. -/
def create_access_token_st (s : AppState) (data : TokenData) (expires_delta : Option Int)
    (now : Int) : Token × AppState :=
  (create_access_token data expires_delta now, s)

/-- `get_current_user` in state-passing form: its body only reads
`users_db` (the membership test on line 79) and contains no assignment. -/
def get_current_user_st (s : AppState) (token : Token) (now : Int) :
    Except HTTPException User × AppState :=
  (get_current_user s.users token now, s)

/-- `create_book` (lines 118-123) in state-passing form, for contrast: it does
mutate the state, appending to `books_db` — showing that the state-passing
embedding is not uniformly the identity on state. -/
def create_book_st (s : AppState) (b : BookRec) : String × AppState :=
  ("Book added", { s with books := s.books ++ [b] })

/-! ## Theorems -/

/-- Claim C1: for every principal whose username is in the user directory,
verifying a token issued for it — `get_current_user` applied to
`create_access_token({"sub": username})` — at any time strictly before the
token expiry (issuance + 900 seconds, the default) succeeds and returns a
`User` whose username equals the principal username. -/
theorem c1_issue_verify_roundtrip (db : Directory) (username : String) (tIssue tVerify : Int)
    (hmem : (dbGet db username).isSome)
    (hbefore : tVerify < tIssue + 900) :
    get_current_user db (create_access_token { sub := some username } none tIssue) tVerify
      = .ok { username := username, disabled := false } := by
  obtain ⟨e, he⟩ := Option.isSome_iff_exists.mp hmem
  have hne : ¬ (tIssue + 900 < tVerify) := by omega
  simp [get_current_user, create_access_token, jwtEncode, jwtDecode, hne, he]

/-- Witness for C1: alice is in the directory and her token, issued at time 0,
verifies at time 100. -/
theorem c1_issue_verify_roundtrip_witness :
    ((dbGet users_db "alice").isSome = true ∧ (100 : Int) < 0 + 900) ∧
    get_current_user users_db (create_access_token { sub := some "alice" } none 0) 100
      = .ok { username := "alice", disabled := false } :=
  ⟨⟨by decide, by decide⟩,
   c1_issue_verify_roundtrip users_db "alice" 0 100 (by decide) (by decide)⟩

/-- Claim C2: whenever the username is a key of the directory and the stored
password equals the supplied one, `authenticate_user` succeeds with a `User`
carrying that username and the entry disabled flag. -/
theorem c2_authenticate_success (db : Directory) (username password : String) (e : Entry)
    (hlook : dbGet db username = some e) (hpw : e.password = password) :
    authenticate_user db username password
      = some { username := username, disabled := e.disabled } := by
  simp [authenticate_user, hlook, hpw]

/-- Witness for C2: alice with her stored password authenticates. -/
theorem c2_authenticate_success_witness :
    (dbGet users_db "alice" = some { username := "alice", password := "wonderland", disabled := false } ∧
      "wonderland" = "wonderland") ∧
    authenticate_user users_db "alice" "wonderland"
      = some { username := "alice", disabled := false } :=
  ⟨⟨by decide, rfl⟩,
   c2_authenticate_success users_db "alice" "wonderland"
     { username := "alice", password := "wonderland", disabled := false } (by decide) rfl⟩

/-- Claim C3: when the username is absent from the directory, and likewise when
it is present but the stored password differs, `authenticate_user` fails with
the same result (`False`, here `none`) — the two failure cases are
indistinguishable to the caller — and `login` turns both into the same
`HTTPException(401)`. -/
theorem c3_authenticate_failure_indistinguishable (db : Directory)
    (u1 p1 u2 p2 : String) (now : Int) (e : Entry)
    (habsent : dbGet db u1 = none)
    (hpresent : dbGet db u2 = some e) (hwrong : e.password ≠ p2) :
    authenticate_user db u1 p1 = none ∧
    authenticate_user db u2 p2 = none ∧
    authenticate_user db u1 p1 = authenticate_user db u2 p2 ∧
    login db u1 p1 now = .error { status_code := 401, detail := none } ∧
    login db u1 p1 now = login db u2 p2 now := by
  have h1 : authenticate_user db u1 p1 = none := by
    simp [authenticate_user, habsent]
  have h2 : authenticate_user db u2 p2 = none := by
    simp [authenticate_user, hpresent, hwrong]
  refine ⟨h1, h2, h1.trans h2.symm, ?_, ?_⟩
  · simp [login, h1]
  · simp [login, h1, h2]

/-- Witness for C3: "charlie" is not in the directory; "alice" is, but
"hatter" is not her password; both fail identically. -/
theorem c3_authenticate_failure_indistinguishable_witness :
    (dbGet users_db "charlie" = none ∧
      dbGet users_db "alice" = some { username := "alice", password := "wonderland", disabled := false } ∧
      "wonderland" ≠ "hatter") ∧
    (authenticate_user users_db "charlie" "x" = none ∧
      authenticate_user users_db "alice" "hatter" = none ∧
      authenticate_user users_db "charlie" "x" = authenticate_user users_db "alice" "hatter" ∧
      login users_db "charlie" "x" 0 = .error { status_code := 401, detail := none } ∧
      login users_db "charlie" "x" 0 = login users_db "alice" "hatter" 0) :=
  ⟨⟨by decide, by decide, by decide⟩,
   c3_authenticate_failure_indistinguishable users_db "charlie" "x" "alice" "hatter" 0
     { username := "alice", password := "wonderland", disabled := false }
     (by decide) (by decide) (by decide)⟩

/-- Counterexample to claim C4: a token issued with ttl = 0 at time 1000 is
NOT immediately expired — verifying it at the very same instant succeeds,
because `expires_delta or timedelta(minutes=15)` treats the falsy zero
`timedelta` as absent and the token gets the default expiry 1900. -/
theorem c4_ttl_zero_counterexample :
    get_current_user users_db (create_access_token { sub := some "alice" } (some 0) 1000) 1000
      = .ok { username := "alice", disabled := false } ∧
    (create_access_token { sub := some "alice" } (some 0) 1000).expiry = some 1900 := by
  exact ⟨rfl, rfl⟩

/-- Claim C4 (amended): a well-formed, correctly signed token fails decoding
with the distinct error `ExpiredSignatureError` exactly when its expiry is
strictly before the verification time (so `exp == now` is still accepted, not
expired — python-jose checks `exp < now`), and `get_current_user` surfaces the
expired case as `HTTPException(401)`; a token issued with ttl = 0 gets the
default 15-minute expiry (a zero `timedelta` is falsy), hence is not
immediately expired. -/
theorem c4_expiry_boundary (db : Directory) (p : Payload) (now : Int) (data : TokenData) :
    (p.exp < now →
      jwtDecode SECRET_KEY (jwtEncode SECRET_KEY p) now = .error .expired ∧
      get_current_user db (jwtEncode SECRET_KEY p) now
        = .error { status_code := 401, detail := none }) ∧
    (¬ p.exp < now → jwtDecode SECRET_KEY (jwtEncode SECRET_KEY p) now = .ok p) ∧
    create_access_token data (some 0) now = create_access_token data none now := by
  refine ⟨fun h => ⟨?_, ?_⟩, fun h => ?_, ?_⟩
  · simp [jwtDecode, jwtEncode, h]
  · simp [get_current_user, jwtDecode, jwtEncode, h]
  · simp [jwtDecode, jwtEncode, h]
  · simp [create_access_token]

/-- Witness for C4 (amended): a correctly signed token with expiry 5 decoded at
time 10 yields the expired error. -/
theorem c4_expiry_boundary_witness :
    ((5 : Int) < 10) ∧
    jwtDecode SECRET_KEY (jwtEncode SECRET_KEY { sub := some "alice", exp := 5 }) 10
      = .error .expired :=
  ⟨by decide,
   ((c4_expiry_boundary users_db { sub := some "alice", exp := 5 } 10
       { sub := some "alice" }).1 (by decide)).1⟩

/-- Claim C5: any alteration of a previously valid token — modelled as the
resulting string being structurally malformed, or carrying a signature that no
longer matches the secret-key MAC of its payload — makes `get_current_user`
fail with `HTTPException(401)` (the `JWTError` branch): it neither succeeds
nor crashes (the embedding is a total function). -/
theorem c5_tampered_token_rejected (db : Directory) (t : Token) (now : Int)
    (h : t = .malformed ∨ ∃ p sig, t = .signed p sig ∧ sig ≠ mac SECRET_KEY p) :
    get_current_user db t now = .error { status_code := 401, detail := none } := by
  rcases h with rfl | ⟨p, sig, rfl, hne⟩
  · rfl
  · simp [get_current_user, jwtDecode, hne]

/-- Witness for C5: a token for alice whose signature was produced under a
different key is rejected. -/
theorem c5_tampered_token_rejected_witness :
    (Token.signed { sub := some "alice", exp := 99999 }
        ("badkey", { sub := some "alice", exp := 99999 }) = Token.malformed ∨
      ∃ p sig,
        Token.signed { sub := some "alice", exp := 99999 }
            ("badkey", { sub := some "alice", exp := 99999 }) = Token.signed p sig ∧
          sig ≠ mac SECRET_KEY p) ∧
    get_current_user users_db
        (Token.signed { sub := some "alice", exp := 99999 }
          ("badkey", { sub := some "alice", exp := 99999 })) 0
      = .error { status_code := 401, detail := none } :=
  ⟨Or.inr ⟨_, _, rfl, by decide⟩,
   c5_tampered_token_rejected users_db _ 0 (Or.inr ⟨_, _, rfl, by decide⟩)⟩

/-- Claim C6: a correctly signed, unexpired token whose decoded subject is not
a key of the directory at verification time makes `get_current_user` fail via
the unknown-subject branch (line 80), surfacing as `HTTPException(401)`. -/
theorem c6_unknown_subject (db : Directory) (p : Payload) (username : String) (now : Int)
    (hsub : p.sub = some username)
    (hunexp : ¬ p.exp < now)
    (habsent : dbGet db username = none) :
    get_current_user db (jwtEncode SECRET_KEY p) now
      = .error { status_code := 401, detail := none } := by
  simp [get_current_user, jwtDecode, jwtEncode, hunexp, hsub, habsent]

/-- Witness for C6: a correctly signed token for "charlie", unexpired at time
0, fails because "charlie" is not in the directory. -/
theorem c6_unknown_subject_witness :
    ((Payload.mk (some "charlie") 1000).sub = some "charlie" ∧
      ¬ (Payload.mk (some "charlie") 1000).exp < 0 ∧
      dbGet users_db "charlie" = none) ∧
    get_current_user users_db (jwtEncode SECRET_KEY (Payload.mk (some "charlie") 1000)) 0
      = .error { status_code := 401, detail := none } :=
  ⟨⟨rfl, by decide, by decide⟩,
   c6_unknown_subject users_db (Payload.mk (some "charlie") 1000) "charlie" 0
     rfl (by decide) (by decide)⟩

/-- Counterexample to claim C7: issuing at time 0 with supplied ttl 0, the
encoded expiry is 900 (the default 15 minutes), not `0 + 0` as the claim
requires, because `expires_delta or timedelta(minutes=15)` treats the falsy
zero `timedelta` as absent. -/
theorem c7_ttl_zero_expiry_counterexample :
    (create_access_token { sub := some "alice" } (some 0) 0).expiry = some 900 ∧
    (900 : Int) ≠ 0 + 0 :=
  ⟨rfl, by decide⟩

/-- Claim C7 (amended): the encoded expiry equals issuance time plus the
supplied ttl whenever that ttl is nonzero; when no ttl is supplied — or when
the supplied ttl is zero, since a zero `timedelta` is falsy — the default of
15 minutes (900 seconds) is used; for any nonnegative supplied ttl the expiry
is strictly later than the issuance time; and the token issued by the login
endpoint expires exactly 15 minutes after issuance. -/
theorem c7_token_expiry (data : TokenData) (d now : Int) (db : Directory)
    (u pw : String) (tIssue : Int) (tr : TokenResponse) :
    (d ≠ 0 → (create_access_token data (some d) now).expiry = some (now + d)) ∧
    (create_access_token data none now).expiry = some (now + 900) ∧
    (create_access_token data (some 0) now).expiry = some (now + 900) ∧
    (0 ≤ d → ∀ e, (create_access_token data (some d) now).expiry = some e → now < e) ∧
    (login db u pw tIssue = .ok tr → tr.access_token.expiry = some (tIssue + 900)) := by
  refine ⟨fun h => ?_, ?_, ?_, fun hd e he => ?_, fun h => ?_⟩
  · simp [create_access_token, jwtEncode, Token.expiry, h]
  · simp [create_access_token, jwtEncode, Token.expiry]
  · simp [create_access_token, jwtEncode, Token.expiry]
  · by_cases h0 : d = 0 <;> simp [create_access_token, jwtEncode, Token.expiry, h0] at he <;> omega
  · unfold login at h
    cases hauth : authenticate_user db u pw with
    | none => rw [hauth] at h; exact absurd h (by simp)
    | some user =>
        rw [hauth] at h
        injection h with h2
        rw [← h2]
        rfl

/-- Witness for C7 (amended): ttl 60 at time 0 gives expiry 60, and the token
issued by a successful alice login at time 0 expires at 900. -/
theorem c7_token_expiry_witness :
    ((60 : Int) ≠ 0 ∧
      (create_access_token { sub := some "alice" } (some 60) 0).expiry = some (0 + 60)) ∧
    (login users_db "alice" "wonderland" 0
        = Except.ok { access_token := create_access_token { sub := some "alice" } none 0,
                      token_type := "bearer" } ∧
      ({ access_token := create_access_token { sub := some "alice" } none 0,
         token_type := "bearer" } : TokenResponse).access_token.expiry = some (0 + 900)) :=
  ⟨⟨by decide,
    (c7_token_expiry { sub := some "alice" } 60 0 users_db "alice" "wonderland" 0
        { access_token := create_access_token { sub := some "alice" } none 0,
          token_type := "bearer" }).1 (by decide)⟩,
   ⟨by rfl,
    (c7_token_expiry { sub := some "alice" } 60 0 users_db "alice" "wonderland" 0
        { access_token := create_access_token { sub := some "alice" } none 0,
          token_type := "bearer" }).2.2.2.2 (by rfl)⟩⟩

/-- Claim C8: every token issued through the login endpoint carries a subject
that is a key of the directory used at issuance: login only issues after
`authenticate_user` succeeds, which requires the username to be present. -/
theorem c8_login_issues_known_subject (db : Directory) (u pw : String) (now : Int)
    (tr : TokenResponse)
    (h : login db u pw now = .ok tr) :
    ∃ s, tr.access_token.subject = some s ∧ (dbGet db s).isSome := by
  unfold login at h
  cases hauth : authenticate_user db u pw with
  | none => rw [hauth] at h; exact absurd h (by simp)
  | some user =>
      rw [hauth] at h
      injection h with h2
      cases hget : dbGet db u with
      | none => simp [authenticate_user, hget] at hauth
      | some e =>
          simp only [authenticate_user, hget] at hauth
          split at hauth
          · exact absurd hauth (by simp)
          · injection hauth with h3
            refine ⟨u, ?_, by simp [hget]⟩
            rw [← h2, ← h3]
            rfl

/-- Witness for C8: the token from a successful alice login carries subject
"alice", which is in the directory. -/
theorem c8_login_issues_known_subject_witness :
    login users_db "alice" "wonderland" 0
        = Except.ok { access_token := create_access_token { sub := some "alice" } none 0,
                      token_type := "bearer" } ∧
    ∃ s, ({ access_token := create_access_token { sub := some "alice" } none 0,
            token_type := "bearer" } : TokenResponse).access_token.subject = some s ∧
          (dbGet users_db s).isSome :=
  ⟨by rfl,
   c8_login_issues_known_subject users_db "alice" "wonderland" 0
     { access_token := create_access_token { sub := some "alice" } none 0,
       token_type := "bearer" } (by rfl)⟩

/-- Claim C9: in the state-passing embedding, `authenticate_user`,
`create_access_token` and `get_current_user` return the program state (the
`users_db` and `books_db` globals) unchanged, whatever their inputs and
whether they succeed or fail — their bodies contain no assignment to any
global (unlike `create_book`, which appends to `books_db`). -/
theorem c9_no_state_mutation (s : AppState) (u pw : String) (data : TokenData)
    (d : Option Int) (tok : Token) (now : Int) :
    (authenticate_user_st s u pw).2 = s ∧
    (create_access_token_st s data d now).2 = s ∧
    (get_current_user_st s tok now).2 = s :=
  ⟨rfl, rfl, rfl⟩

/-- Claim C10: under the validated precondition `book_id > 0`, `get_book`
returns the book at 1-based position `book_id` when `book_id` is at most the
catalog length, returns a 404 error when it exceeds it, and the list access
`books_db[book_id - 1]` never raises `IndexError` (the result is never
`none`). -/
theorem c10_get_book_safe (books : List BookRec) (book_id : Int)
    (hpos : 0 < book_id) :
    (book_id ≤ (books.length : Int) →
      ∃ hlt : (book_id - 1).toNat < books.length,
        get_book books book_id = some (.ok (books.get ⟨(book_id - 1).toNat, hlt⟩))) ∧
    ((books.length : Int) < book_id →
      get_book books book_id
        = some (.error { status_code := 404, detail := some "Book not found" })) ∧
    get_book books book_id ≠ none := by
  have hA : book_id ≤ (books.length : Int) →
      ∃ hlt : (book_id - 1).toNat < books.length,
        get_book books book_id = some (.ok (books.get ⟨(book_id - 1).toNat, hlt⟩)) := by
    intro hle
    have hlt : (book_id - 1).toNat < books.length := by omega
    have hnotgt : ¬ (book_id > (books.length : Int)) := by omega
    have hnn : (0 : Int) ≤ book_id - 1 := by omega
    refine ⟨hlt, ?_⟩
    simp [get_book, hnotgt, pyIndex, hnn, List.getElem?_eq_getElem hlt]
  have hB : (books.length : Int) < book_id →
      get_book books book_id
        = some (.error { status_code := 404, detail := some "Book not found" }) := by
    intro hgt
    simp [get_book, hgt]
  refine ⟨hA, hB, ?_⟩
  by_cases hle : book_id ≤ (books.length : Int)
  · obtain ⟨hlt, heq⟩ := hA hle
    simp [heq]
  · rw [hB (by omega)]
    simp

/-- Witness for C10: with the initial catalog, book id 1 is "The Hobbit" and
book id 5 is a 404; neither access crashes. -/
theorem c10_get_book_safe_witness :
    ((0 : Int) < 1 ∧ (1 : Int) ≤ (books_db.length : Int) ∧
      ∃ hlt : ((1 : Int) - 1).toNat < books_db.length,
        get_book books_db 1 = some (.ok (books_db.get ⟨((1 : Int) - 1).toNat, hlt⟩))) ∧
    ((0 : Int) < 5 ∧ (books_db.length : Int) < 5 ∧
      get_book books_db 5
        = some (.error { status_code := 404, detail := some "Book not found" })) :=
  ⟨⟨by decide, by decide, (c10_get_book_safe books_db 1 (by decide)).1 (by decide)⟩,
   ⟨by decide, by decide, (c10_get_book_safe books_db 5 (by decide)).2.1 (by decide)⟩⟩

end LibraryApi
